import Mathlib

/-!
Verification development for the PrintPackSyncApproval ledger stack:
the Solidity contract `contracts/PrintPackSyncApproval.sol` (the strict
variant), the `Web3BlockchainService` wrapper, and the
`/search-approvals` query route. Solidity state is embedded as a total
mapping plus an insertion-order list; `require` failures are modelled as
`Except.error` carrying the revert message, and a failed call leaves the
state unchanged (revert semantics). Machine integers (`uint256`) are
modelled as `Nat`; none of the verified operations can overflow them.
-/

namespace PrintPack

/-- A stored approval record: the `SyncApproval` struct of the
`PrintPackSyncApproval` contract.  `timestamp` is `block.timestamp`
(seconds, a `uint256`). -/
structure SyncApproval where
  requestId   : String
  requesterId : String
  ownerId     : String
  requestType : String
  licenceKey  : String
  timestamp   : Nat
  isActive    : Bool
deriving Repr, DecidableEq

/-- The default value of a Solidity `mapping(string => SyncApproval)`
entry: every field zero-initialised. -/
def defaultApproval : SyncApproval :=
  { requestId := "", requesterId := "", ownerId := "", requestType := ""
    licenceKey := "", timestamp := 0, isActive := false }

/-- Contract storage: the `approvals` mapping (total, defaulting) and the
`approvalIds` array (insertion order, append-only). -/
structure Ledger where
  approvals   : String → SyncApproval
  approvalIds : List String

/-- Freshly deployed contract state. -/
def emptyLedger : Ledger :=
  { approvals := fun _ => defaultApproval, approvalIds := [] }

/-- `PrintPackSyncApproval.recordApproval`.  The duplicate guard is the
contract's own check: `require(bytes(approvals[approvalId].requestId).length == 0)`,
i.e. the stored record at the key must have an empty `requestId`.
`now` stands for `block.timestamp`. -/
def recordApproval (st : Ledger) (now : Nat)
    (approvalId requestId requesterId ownerId requestType licenceKey : String) :
    Except String Ledger :=
  if (st.approvals approvalId).requestId = "" then
    .ok { approvals := fun k =>
            if k = approvalId then
              { requestId := requestId, requesterId := requesterId
                ownerId := ownerId, requestType := requestType
                licenceKey := licenceKey, timestamp := now, isActive := true }
            else st.approvals k
          approvalIds := st.approvalIds ++ [approvalId] }
  else
    .error "Approval ID already exists"

/-- `PrintPackSyncApproval.deactivateApproval`: existence is checked via
`bytes(approvals[approvalId].requestId).length > 0`, then the record must
still be active; on success only `isActive` is flipped to `false`. -/
def deactivateApproval (st : Ledger) (approvalId : String) : Except String Ledger :=
  if (st.approvals approvalId).requestId = "" then
    .error "Approval does not exist"
  else if (st.approvals approvalId).isActive then
    .ok { st with approvals := fun k =>
            if k = approvalId then { st.approvals approvalId with isActive := false }
            else st.approvals k }
  else
    .error "Approval is already inactive"

/-- `PrintPackSyncApproval.getApproval`: a view function with no existence
check; an absent key yields the zero-initialised struct. -/
def getApproval (st : Ledger) (approvalId : String) : SyncApproval :=
  st.approvals approvalId

/-- `PrintPackSyncApproval.getTotalApprovals`. -/
def getTotalApprovals (st : Ledger) : Nat :=
  st.approvalIds.length

/-- `PrintPackSyncApproval.getApprovalIdByIndex`:
`require(index < approvalIds.length, "Index out of bounds")`. -/
def getApprovalIdByIndex (st : Ledger) (index : Nat) : Except String String :=
  if h : index < st.approvalIds.length then
    .ok (st.approvalIds.get ⟨index, h⟩)
  else
    .error "Index out of bounds"

/-- The contract call as reachable from the service boundary, where the
index is a JS number: the parameter is a `uint256`, so a negative
argument fails ABI encoding before any call is made. -/
def getApprovalIdByIndexInt (st : Ledger) (index : Int) : Except String String :=
  if index < 0 then .error "value out-of-bounds"
  else getApprovalIdByIndex st index.toNat

/-- A view call through `Web3BlockchainService.getApproval` on the live
path: the contract function cannot revert, so the call succeeds and the
service wraps the returned struct in a success envelope. -/
def callGetApproval (st : Ledger) (approvalId : String) : Except String SyncApproval :=
  .ok (getApproval st approvalId)

/-- One external call against the contract, as issued by the service. -/
inductive Op where
  | insert (now : Nat)
      (approvalId requestId requesterId ownerId requestType licenceKey : String)
  | deactivate (approvalId : String)
  | get (approvalId : String)

/-- Transaction semantics of a single call: a reverted transaction leaves
the storage unchanged, a view call never changes it. -/
def applyOp (st : Ledger) : Op → Ledger
  | .insert now a r q o t l =>
      match recordApproval st now a r q o t l with
      | .ok st2 => st2
      | .error _ => st
  | .deactivate a =>
      match deactivateApproval st a with
      | .ok st2 => st2
      | .error _ => st
  | .get _ => st

/-- Run a sequence of calls left to right. -/
def run (st : Ledger) : List Op → Ledger
  | [] => st
  | op :: ops => run (applyOp st op) ops

/-- The approval ids of the insert calls of a trace, in call order. -/
def insertedIds : List Op → List String
  | [] => []
  | .insert _ a _ _ _ _ _ :: ops => a :: insertedIds ops
  | .deactivate _ :: ops => insertedIds ops
  | .get _ :: ops => insertedIds ops

/-- A concrete trace used to exercise the theorems: two inserts with
distinct ids, interleaved with a read and two deactivations (the second
of which reverts). -/
def demoOps : List Op :=
  [ .insert 5 "A1" "R1" "U1" "U2" "gcp" "GS1-1",
    .get "A1",
    .deactivate "A1",
    .insert 7 "B2" "R2" "U3" "U4" "excel" "",
    .deactivate "A1" ]

/-- Ledger obtained by inserting, into a fresh deployment, a record whose
`requestId` is the empty string (the value the duplicate guard of
`recordApproval` uses as its absence sentinel). -/
def emptyReqIdLedger : Ledger :=
  applyOp emptyLedger (.insert 1 "A" "" "Q" "O" "gcp" "")

/-- Ledger holding one active record "A1" with `requestId` "R1". -/
def liveLedger : Ledger :=
  applyOp emptyLedger (.insert 5 "A1" "R1" "U1" "U2" "gcp" "GS1-1")

/-- `liveLedger` after deactivating "A1". -/
def deactLedger : Ledger :=
  applyOp liveLedger (.deactivate "A1")

/-! JavaScript string primitives used by the service layer, modelled on
the character list underlying `String`.  JS strings are sequences of
code units; the ids, keys and messages involved here are ASCII, for
which `Char.toLower` agrees with `String.prototype.toLowerCase`. -/

/-- JS `a.includes(b)`: `b` occurs contiguously inside `a`. -/
def containsSub (hay needle : String) : Bool :=
  decide (needle.data <:+: hay.data)

/-- JS `s.toLowerCase()` on ASCII data. -/
def strLower (s : String) : String :=
  String.mk (s.data.map Char.toLower)

/-- Case-insensitive containment: `a.toLowerCase().includes(b.toLowerCase())`. -/
def containsCI (hay needle : String) : Bool :=
  containsSub (strLower hay) (strLower needle)

/-- JS `s.substring(a, b)` for `a ≤ b`: both indexes clamp to the string
length. -/
def jsSubstring (s : String) (a b : Nat) : String :=
  String.mk ((s.data.drop a).take (b - a))

/-- JS `s.startsWith("0x")`. -/
def starts0x (s : String) : Bool :=
  s.data.take 2 == ['0', 'x']

/-- `key.substring(2)` applied when the `0x` marker is present. -/
def strip0x (s : String) : String :=
  if starts0x s then String.mk (s.data.drop 2) else s

/-- The regular expression `[0-9a-fA-F]` of `validatePrivateKey`. -/
def isHexDigit (c : Char) : Bool :=
  ('0' ≤ c && c ≤ '9') || ('a' ≤ c && c ≤ 'f') || ('A' ≤ c && c ≤ 'F')

/-- The test `/^[0-9a-fA-F]{64}$/.test(s)`. -/
def isHex64 (s : String) : Bool :=
  s.data.length == 64 && s.data.all isHexDigit

/-- A JavaScript value as passed to `validatePrivateKey`: either a string
or some non-string value (undefined, null, a number, an object). -/
inductive JSVal where
  | str : String → JSVal
  | nonString : JSVal
deriving Repr, DecidableEq

/-- `Web3BlockchainService.validatePrivateKey`: rejects falsy and
non-string values, strips an optional `0x`, requires 64 hex characters,
and returns the `0x`-prefixed normal form. -/
def validatePrivateKey : JSVal → Except String String
  | .nonString => .error "Private key must be a non-empty string"
  | .str key =>
      if key = "" then .error "Private key must be a non-empty string"
      else if isHex64 (strip0x key) then .ok ("0x" ++ strip0x key)
      else .error "Private key must be a 64-character hexadecimal string"

/-- A 64-character mixed-case hexadecimal sample key. -/
def sampleHexKey : String :=
  "aAbBcCdD00112233445566778899eeff" ++ "aAbBcCdD00112233445566778899eeff"

/-! The `/search-approvals` route of the blockchain router: the records
assembled by its enumeration loop and its chain of `Array.filter`
calls. -/

/-- The formatted data object built by `Web3BlockchainService.getApproval`
(and by its mock): the seven record fields as the route sees them.
The timestamp is a JS number, kept as `Int`. -/
structure ApprovalData where
  requestId   : String
  requesterId : String
  ownerId     : String
  requestType : String
  licenceKey  : String
  timestamp   : Int
  isActive    : Bool
deriving Repr, DecidableEq

/-- One entry of the route's `allApprovals` array:
`\x7b approval_id, ...approvalData.data \x7d`. -/
structure ScannedApproval where
  approval_id : String
  data : ApprovalData
deriving Repr, DecidableEq

/-- The query parameters of `/search-approvals`.  A string field is
`some s` when the parameter was supplied; the route skips a string
filter when the parameter is missing or empty (JS truthiness).
`fromDate`/`toDate` hold `new Date(param).getTime()` for a supplied,
truthy date parameter.  `isActive` is the raw query string, compared
against the literal "true". -/
structure SearchQuery where
  requestId   : Option String
  requesterId : Option String
  ownerId     : Option String
  requestType : Option String
  licenceKey  : Option String
  fromDate    : Option Int
  toDate      : Option Int
  isActive    : Option String
deriving Repr

/-- A substring filter body, e.g.
`approval.requestId && approval.requestId.toLowerCase().includes(s.toLowerCase())`. -/
def strFilterTest (field : ScannedApproval → String) (s : String)
    (a : ScannedApproval) : Bool :=
  !(field a == "") && containsCI (field a) s

/-- One `if (param) \x7b ... filter ... \x7d` block for a substring filter. -/
def strStage (field : ScannedApproval → String) (q : Option String)
    (l : List ScannedApproval) : List ScannedApproval :=
  match q with
  | some s => if s = "" then l else l.filter (strFilterTest field s)
  | none => l

/-- The predicate a record must satisfy to survive `strStage`. -/
def strStagePred (field : ScannedApproval → String) (q : Option String)
    (a : ScannedApproval) : Bool :=
  match q with
  | some s => if s = "" then true else strFilterTest field s a
  | none => true

/-- The requestType filter body:
`approval.requestType && approval.requestType.toLowerCase() === requestType.toLowerCase()`. -/
def typeFilterTest (s : String) (a : ScannedApproval) : Bool :=
  !(a.data.requestType == "") && (strLower a.data.requestType == strLower s)

/-- The `if (requestType)` block. -/
def typeStage (q : Option String) (l : List ScannedApproval) : List ScannedApproval :=
  match q with
  | some s => if s = "" then l else l.filter (typeFilterTest s)
  | none => l

/-- The predicate of `typeStage`. -/
def typeStagePred (q : Option String) (a : ScannedApproval) : Bool :=
  match q with
  | some s => if s = "" then true else typeFilterTest s a
  | none => true

/-- The fromDate filter body:
`approval.timestamp && approval.timestamp >= fromTimestamp`. -/
def fromFilterTest (ts : Int) (a : ScannedApproval) : Bool :=
  !(a.data.timestamp == 0) && decide (ts ≤ a.data.timestamp)

/-- The `if (fromDate)` block. -/
def fromStage (q : Option Int) (l : List ScannedApproval) : List ScannedApproval :=
  match q with
  | some ts => l.filter (fromFilterTest ts)
  | none => l

/-- The predicate of `fromStage`. -/
def fromStagePred (q : Option Int) (a : ScannedApproval) : Bool :=
  match q with
  | some ts => fromFilterTest ts a
  | none => true

/-- The toDate filter body:
`approval.timestamp && approval.timestamp <= toTimestamp`. -/
def toFilterTest (ts : Int) (a : ScannedApproval) : Bool :=
  !(a.data.timestamp == 0) && decide (a.data.timestamp ≤ ts)

/-- The `if (toDate)` block. -/
def toStage (q : Option Int) (l : List ScannedApproval) : List ScannedApproval :=
  match q with
  | some ts => l.filter (toFilterTest ts)
  | none => l

/-- The predicate of `toStage`. -/
def toStagePred (q : Option Int) (a : ScannedApproval) : Bool :=
  match q with
  | some ts => toFilterTest ts a
  | none => true

/-- The isActive filter body: `approval.isActive === (isActive === 'true')`. -/
def activeFilterTest (s : String) (a : ScannedApproval) : Bool :=
  a.data.isActive == (s == "true")

/-- The `if (isActive !== undefined)` block; an empty supplied string still
counts as defined. -/
def activeStage (q : Option String) (l : List ScannedApproval) : List ScannedApproval :=
  match q with
  | some s => l.filter (activeFilterTest s)
  | none => l

/-- The predicate of `activeStage`. -/
def activeStagePred (q : Option String) (a : ScannedApproval) : Bool :=
  match q with
  | some s => activeFilterTest s a
  | none => true

/-- The route's filter chain, in source order: requestId, requesterId,
ownerId, requestType, licenceKey, fromDate, toDate, isActive. -/
def filterApprovals (q : SearchQuery) (l : List ScannedApproval) : List ScannedApproval :=
  activeStage q.isActive
    (toStage q.toDate
      (fromStage q.fromDate
        (strStage (fun x => x.data.licenceKey) q.licenceKey
          (typeStage q.requestType
            (strStage (fun x => x.data.ownerId) q.ownerId
              (strStage (fun x => x.data.requesterId) q.requesterId
                (strStage (fun x => x.data.requestId) q.requestId l)))))))

/-- The conjunction of all eight stage predicates (`&&` is commutative and
associative, so the grouping is immaterial; it is chosen to match the
mechanical collapse of the filter chain). -/
def matchesAll (q : SearchQuery) (a : ScannedApproval) : Bool :=
  activeStagePred q.isActive a &&
    (toStagePred q.toDate a &&
      (fromStagePred q.fromDate a &&
        (strStagePred (fun x => x.data.licenceKey) q.licenceKey a &&
          (typeStagePred q.requestType a &&
            (strStagePred (fun x => x.data.ownerId) q.ownerId a &&
              (strStagePred (fun x => x.data.requesterId) q.requesterId a &&
                strStagePred (fun x => x.data.requestId) q.requestId a))))))

/-- The query with no parameters supplied. -/
def emptyQuery : SearchQuery :=
  { requestId := none, requesterId := none, ownerId := none, requestType := none
    licenceKey := none, fromDate := none, toDate := none, isActive := none }

/-- The data part of the route's 200 response: `total_found`,
`total_approvals` (the pre-filter chain count) and the filtered list. -/
structure SearchResponse where
  total_found : Nat
  total_approvals : Nat
  approvals : List ScannedApproval
deriving Repr, DecidableEq

/-- Assembly of the search response from the scanned records and the
count reported by the chain. -/
def searchResponse (q : SearchQuery) (scanned : List ScannedApproval)
    (totalApprovals : Nat) : SearchResponse :=
  { total_found := (filterApprovals q scanned).length
    total_approvals := totalApprovals
    approvals := filterApprovals q scanned }

/-- Modelled from the spec: the filter predicate as the claim words it —
requestId, requesterId, ownerId and licenceKey as case-insensitive
substring, requestType as an exact match, timestamp within the supplied
bounds, isActive as an exact boolean match. -/
def claimMatches (q : SearchQuery) (a : ScannedApproval) : Bool :=
  (match q.requestId with | some s => containsCI a.data.requestId s | none => true) &&
  (match q.requesterId with | some s => containsCI a.data.requesterId s | none => true) &&
  (match q.ownerId with | some s => containsCI a.data.ownerId s | none => true) &&
  (match q.requestType with | some s => a.data.requestType == s | none => true) &&
  (match q.licenceKey with | some s => containsCI a.data.licenceKey s | none => true) &&
  (match q.fromDate with | some ts => decide (ts ≤ a.data.timestamp) | none => true) &&
  (match q.toDate with | some ts => decide (a.data.timestamp ≤ ts) | none => true) &&
  (match q.isActive with | some s => a.data.isActive == (s == "true") | none => true)

/-- A scanned record of type "gcp". -/
def gcpScanned : ScannedApproval :=
  { approval_id := "A1"
    data := { requestId := "req-1", requesterId := "u-1", ownerId := "u-2"
              requestType := "gcp", licenceKey := "GS1-1", timestamp := 100
              isActive := true } }

/-- A scanned record of type "excel", inactive. -/
def excelScanned : ScannedApproval :=
  { approval_id := "B2"
    data := { requestId := "req-2", requesterId := "u-3", ownerId := "u-4"
              requestType := "excel", licenceKey := "GS1-2", timestamp := 200
              isActive := false } }

/-- A query whose only parameter is `requestType=GCP` (upper case). -/
def qUpperGCP : SearchQuery :=
  { emptyQuery with requestType := some "GCP" }

/-- The example query of the spec: `requestType=gcp&isActive=true`. -/
def demoQuery : SearchQuery :=
  { emptyQuery with requestType := some "gcp", isActive := some "true" }

/-- The two-record scan list used by the witnesses. -/
def demoScan : List ScannedApproval := [gcpScanned, excelScanned]

/-- Zero-initialised data object. -/
def defaultData : ApprovalData :=
  { requestId := "", requesterId := "", ownerId := "", requestType := ""
    licenceKey := "", timestamp := 0, isActive := false }

/-- The object returned by `Web3BlockchainService.getApproval`: a success
flag, the error message of a failure, and the formatted data. -/
structure GetResult where
  success : Bool
  errMsg : String
  data : ApprovalData
deriving Repr, DecidableEq

/-! The enumeration loop of `/search-approvals`.  The backend calls are
abstracted as oracles: `idAt i` is the outcome of
`getApprovalIdByIndex(i)` (`Except.error` when the service throws) and
`getAp id` the outcome of `getApproval(id)`. -/

/-- One iteration of the loop: a thrown error at either call is caught,
logged and skipped; a non-success result object is skipped as well
because the loop only pushes when `approvalData.success` holds. -/
def scanOne (idAt : Nat → Except String String)
    (getAp : String → Except String GetResult) (i : Nat) : Option ScannedApproval :=
  match idAt i with
  | .error _ => none
  | .ok id =>
      match getAp id with
      | .error _ => none
      | .ok r => if r.success then some { approval_id := id, data := r.data } else none

/-- The loop `for (let i = 0; i < totalApprovals; i++)`, with the current
index and the number of remaining iterations. -/
def scanAux (idAt : Nat → Except String String)
    (getAp : String → Except String GetResult) : Nat → Nat → List ScannedApproval
  | _, 0 => []
  | i, rem + 1 =>
      match scanOne idAt getAp i with
      | some x => x :: scanAux idAt getAp (i + 1) rem
      | none => scanAux idAt getAp (i + 1) rem

/-- The two hard-coded sample records the route substitutes when
`getTotalApprovals` itself fails; their timestamps come from
`Date.now()` (milliseconds). -/
def mockSearchData (nowMs : Int) : List ScannedApproval :=
  [ { approval_id := "480e24ac73d48cd107ea16cd14798b89"
      data := { requestId := "test-request-id-1", requesterId := "test-requester-id-1"
                ownerId := "test-owner-id-1", requestType := "gcp"
                licenceKey := "GS1-123456", timestamp := nowMs - 1000000
                isActive := true } },
    { approval_id := "7f8e9d6c5b4a3210fedcba9876543210"
      data := { requestId := "test-request-id-2", requesterId := "test-requester-id-2"
                ownerId := "test-owner-id-2", requestType := "excel"
                licenceKey := "GS1-654321", timestamp := nowMs - 2000000
                isActive := false } } ]

/-- The fetch phase of `/search-approvals`: on a successful count, scan
all indexes, skipping individually failing records; when the count call
fails, substitute the two sample records (the route's `totalApprovals`
stays 0) and still answer 200 — the operation never fails here. -/
def searchFetch (nowMs : Int) (total : Except String Nat)
    (idAt : Nat → Except String String)
    (getAp : String → Except String GetResult) :
    Except String (List ScannedApproval × Nat) :=
  match total with
  | .ok n => .ok (scanAux idAt getAp 0 n, n)
  | .error _ => .ok (mockSearchData nowMs, 0)

/-! The connection strategy of the `Web3BlockchainService` constructor. -/

/-- The operating posture after construction. -/
inductive Mode where
  | live
  | readOnly
  | simulated
deriving Repr, DecidableEq

/-- The environment variables the constructor reads. -/
structure Env where
  isGanache : Bool
  useMockMode : Bool
  allowMockFallback : Bool
  privateKey : Option String
deriving Repr, DecidableEq

/-- The constructor's catch block: an error message containing
`Private Key` (case-sensitive `includes`) selects read-only mode and
re-initialises without an account — and if even that fails, mock mode is
entered regardless of any flag; any other error falls back to mock mode
only when `ALLOW_MOCK_FALLBACK` is set, and is otherwise rethrown. -/
def catchHandler (env : Env) (reInit : Except String Unit) (e : String) :
    Except String Mode :=
  if containsSub e "Private Key" then
    match reInit with
    | .ok _ => .ok .readOnly
    | .error _ => .ok .simulated
  else if env.allowMockFallback then .ok .simulated
  else .error ("Failed to initialize blockchain connection: " ++ e)

/-- The `Web3BlockchainService` constructor.  `initResult` is the outcome
of creating the Web3 instance and contract handle, `acct` the outcome of
`privateKeyToAccount`/`wallet.add` on a key the regex accepted, and
`reInit` the outcome of the read-only re-initialisation attempted inside
the catch block.  Ganache forces live mode with a deferred account; an
explicit mock flag short-circuits to simulated; otherwise a missing key
gives read-only, while a failure of the regex validation or of the
account creation is rewrapped as `Invalid private key format: …` and
rethrown into the catch block; only a key that passes both gives live. -/
def constructService (env : Env) (initResult acct reInit : Except String Unit) :
    Except String Mode :=
  if env.isGanache then
    match initResult with
    | .ok _ => .ok .live
    | .error e => catchHandler env reInit e
  else if env.useMockMode then .ok .simulated
  else
    match initResult with
    | .error e => catchHandler env reInit e
    | .ok _ =>
        match env.privateKey with
        | none => .ok .readOnly
        | some k =>
            match validatePrivateKey (.str k) with
            | .ok _ =>
                match acct with
                | .ok _ => .ok .live
                | .error msg =>
                    catchHandler env reInit ("Invalid private key format: " ++ msg)
            | .error msg => catchHandler env reInit ("Invalid private key format: " ++ msg)

/-- The values drawn from `Math.random()` during one `_mockGetApproval`
call: the type coin toss, the licence number, the timestamp offset and
the activity coin toss. -/
structure MockRand where
  typeAbove : Bool
  licNum : Nat
  tsBack : Nat
  activeAbove : Bool
deriving Repr, DecidableEq

/-- The input object of `recordSyncApproval`. -/
structure ApprovalInput where
  approvalId : String
  requestId : String
  requesterId : String
  ownerId : String
  requestType : String
  licenceKey : String
deriving Repr, DecidableEq

/-- The result object of `_mockRecordSyncApproval`: always a success, with
`Date.now()` as block number; nothing is stored anywhere. -/
structure MockRecordResult where
  success : Bool
  blockNumber : Int
  approvalId : String
deriving Repr, DecidableEq

/-- `_mockRecordSyncApproval`. -/
def mockRecordSyncApproval (inp : ApprovalInput) (nowMs : Int) : MockRecordResult :=
  { success := true, blockNumber := nowMs, approvalId := inp.approvalId }

/-- `_mockGetApproval`: two canned fixtures for two known ids; for every
other id the data is fabricated from the id itself and from
`Math.random()` — the stored record is never consulted. -/
def mockGetApproval (approvalId : String) (nowSec : Int) (r : MockRand) : GetResult :=
  if approvalId = "480e24ac73d48cd107ea16cd14798b89" then
    { success := true, errMsg := ""
      data := { requestId := "real-request-id-1", requesterId := "real-requester-id-1"
                ownerId := "real-owner-id-1", requestType := "gcp"
                licenceKey := "GS1-123456", timestamp := nowSec - 86400
                isActive := true } }
  else if approvalId = "7f8e9d6c5b4a3210fedcba9876543210" then
    { success := true, errMsg := ""
      data := { requestId := "real-request-id-2", requesterId := "real-requester-id-2"
                ownerId := "real-owner-id-2", requestType := "excel"
                licenceKey := "GS1-654321", timestamp := nowSec - 172800
                isActive := false } }
  else
    { success := true, errMsg := ""
      data := { requestId := "real-request-" ++ jsSubstring approvalId 0 8
                requesterId := "real-requester-" ++ jsSubstring approvalId 8 16
                ownerId := "real-owner-" ++ jsSubstring approvalId 16 24
                requestType := if r.typeAbove then "gcp" else "excel"
                licenceKey := "GS1-" ++ toString r.licNum
                timestamp := nowSec - r.tsBack
                isActive := r.activeAbove } }

/-! The retry structure of `recordSyncApproval` and `deactivateApproval`.
Each element of the attempt list is the outcome of one
estimate-and-send round against the backend. -/

/-- The outcome of one transaction attempt. -/
inductive Attempt where
  | success (txHash : String) (blockNumber : Nat)
  | failure (msg : String)
deriving Repr, DecidableEq

/-- `error.message.includes('insufficient funds')`. -/
def isInsufficient (msg : String) : Bool :=
  containsSub msg "insufficient funds"

/-- Whether an attempt failed with the insufficient-funds pattern. -/
def insufficientAttempt : Attempt → Bool
  | .success _ _ => false
  | .failure m => isInsufficient m

/-- The result object surfaced to the caller. -/
structure TxOutcome where
  success : Bool
  errMsg : String
deriving Repr, DecidableEq

/-- The result `recordSyncApproval` surfaces for a terminal attempt: the
success receipt, or the generic failure envelope. -/
def finalOutcome : Attempt → TxOutcome
  | .success _ _ => { success := true, errMsg := "" }
  | .failure m => { success := false, errMsg := "Failed to record on blockchain: " ++ m }

/-- The insufficient-funds failure envelope (built from the balance
lookup; surfaced when no further retry happens). -/
def insufficientOutcome : TxOutcome :=
  { success := false, errMsg := "Insufficient funds to pay for transaction gas fees" }

/-- The Ganache path of `recordSyncApproval`: an insufficient-funds
failure re-resolves the account (`reInit k` is the outcome of the k-th
re-resolution) and then calls `recordSyncApproval` again on itself —
an unbounded recursive self-call.  The result is paired with the number
of attempts consumed; `none` means the attempt trace ran out while the
code was still retrying. -/
def recordAttemptsGanache (reInit : Nat → Except String Unit) :
    Nat → List Attempt → Option (TxOutcome × Nat)
  | _, [] => none
  | _, .success h b :: _ => some (finalOutcome (.success h b), 1)
  | k, .failure msg :: rest =>
      if isInsufficient msg then
        match reInit k with
        | .ok _ =>
            match recordAttemptsGanache reInit (k + 1) rest with
            | some (r, n) => some (r, n + 1)
            | none => none
        | .error _ => some (insufficientOutcome, 1)
      else some (finalOutcome (.failure msg), 1)

/-- The non-Ganache path of `recordSyncApproval` with the mock-fallback
flag unset: no retry of any kind; an insufficient-funds failure surfaces
the funds envelope, any other failure the generic one. -/
def recordAttemptsNonGanache : List Attempt → Option (TxOutcome × Nat)
  | [] => none
  | .success h b :: _ => some (finalOutcome (.success h b), 1)
  | .failure msg :: _ =>
      if isInsufficient msg then some (insufficientOutcome, 1)
      else some (finalOutcome (.failure msg), 1)

/-- The envelope a non-Ganache insert surfaces for its first (and only)
attempt: the receipt on success, the funds envelope on an
insufficient-funds failure, the generic one otherwise. -/
def nonGanacheSurface : Attempt → TxOutcome
  | .success h b => finalOutcome (.success h b)
  | .failure msg =>
      if isInsufficient msg then insufficientOutcome
      else finalOutcome (.failure msg)

/-- The result `deactivateApproval` surfaces for its single attempt. -/
def deactSurface : Attempt → TxOutcome
  | .success _ _ => { success := true, errMsg := "" }
  | .failure m =>
      { success := false, errMsg := "Failed to deactivate approval on blockchain: " ++ m }

/-- A sample insufficient-funds failure message. -/
def insuffAttempt : Attempt :=
  .failure "insufficient funds for gas * price + value"

/-! The per-call mode checks of the service methods. -/

/-- The service flags and account as set up by the constructor. -/
structure ServiceState where
  mockMode : Bool
  readOnlyMode : Bool
  isGanache : Bool
  account : Option String
deriving Repr, DecidableEq

/-- The read-only rejection of `recordSyncApproval`. -/
def readOnlyErrMsg : String :=
  "Cannot record approval in read-only mode. Private key is invalid or not provided."

/-- `recordSyncApproval`: mock mode answers from the mock immediately,
read-only mode fails fast before any backend interaction (0 attempts
consumed), otherwise the transaction rounds run. -/
def recordService (st : ServiceState) (reInit : Nat → Except String Unit)
    (attempts : List Attempt) : Option (TxOutcome × Nat) :=
  if st.mockMode then some ({ success := true, errMsg := "" }, 0)
  else if st.readOnlyMode then some ({ success := false, errMsg := readOnlyErrMsg }, 0)
  else if st.isGanache then recordAttemptsGanache reInit 0 attempts
  else recordAttemptsNonGanache attempts

/-- The error surfaced when `deactivateApproval` dereferences
`this.account.address` with no account: the thrown TypeError (its
engine-specific property suffix elided) is caught and wrapped. -/
def undefinedAccountMsg : String :=
  "Failed to deactivate approval on blockchain: Cannot read properties of undefined"

/-- The transaction part of `deactivateApproval`, given the resolved
account. -/
def deactivateWith (acct : Option String) (attempts : List Attempt) :
    Option (TxOutcome × Nat) :=
  match acct with
  | none => some ({ success := false, errMsg := undefinedAccountMsg }, 0)
  | some _ =>
      match attempts with
      | [] => none
      | a :: _ => some (deactSurface a, 1)

/-- `deactivateApproval`: only the mock check guards the method — there is
no read-only check; on Ganache a missing account is first resolved via
`initGanacheAccount` (outcome `ginit`), whose failure is caught and
wrapped. -/
def deactivateService (st : ServiceState) (ginit : Except String String)
    (attempts : List Attempt) : Option (TxOutcome × Nat) :=
  if st.mockMode then some ({ success := true, errMsg := "" }, 0)
  else
    if st.isGanache && st.account.isNone then
      match ginit with
      | .error e =>
          some ({ success := false
                  errMsg := "Failed to deactivate approval on blockchain: " ++ e }, 0)
      | .ok a => deactivateWith (some a) attempts
    else deactivateWith st.account attempts

/-- `getTotalApprovals`: the mock answers 2; otherwise the call result is
passed through, a thrown error being rewrapped. -/
def getTotalApprovalsService (st : ServiceState) (backendResult : Except String Nat) :
    Except String Nat :=
  if st.mockMode then .ok 2
  else
    match backendResult with
    | .ok n => .ok n
    | .error e => .error ("Failed to get total approvals from blockchain: " ++ e)

/-- `_mockGetApprovalIdByIndex`. -/
def mockGetApprovalIdByIndex (index : Nat) : String :=
  if index = 0 then "480e24ac73d48cd107ea16cd14798b89"
  else "7f8e9d6c5b4a3210fedcba9876543210"

/-- `getApprovalIdByIndex` at the service: the mock answers one of the two
known ids; otherwise the call result is passed through. -/
def getApprovalIdByIndexService (st : ServiceState) (index : Nat)
    (backendResult : Except String String) : Except String String :=
  if st.mockMode then .ok (mockGetApprovalIdByIndex index)
  else
    match backendResult with
    | .ok s => .ok s
    | .error e => .error ("Failed to get approval ID by index from blockchain: " ++ e)

/-- `getApproval` at the service with the mock-fallback flag unset: the
mock branch first; then the live call, whose data is wrapped in a
success envelope; an ABI mismatch (detected by message pattern, here the
apostrophe-free stem of the V8 text) is rethrown, any other failure is
returned as a non-success envelope. -/
def getApprovalService (st : ServiceState) (approvalId : String) (nowSec : Int)
    (r : MockRand) (callResult : Except String ApprovalData) :
    Except String GetResult :=
  if st.mockMode then .ok (mockGetApproval approvalId nowSec r)
  else
    match callResult with
    | .ok d => .ok { success := true, errMsg := "", data := d }
    | .error e =>
        if containsSub e "Returned values" then
          .error ("ABI error when retrieving approval: " ++ e)
        else
          .ok { success := false
                errMsg := "Failed to get approval from blockchain: " ++ e
                data := defaultData }

/-- The state of a read-only service: no mock, no Ganache, no account. -/
def readOnlyState : ServiceState :=
  { mockMode := false, readOnlyMode := true, isGanache := false, account := none }

theorem deactivateApproval_ok {st st' : Ledger} {a : String}
    (h : deactivateApproval st a = .ok st') :
    (st.approvals a).requestId ≠ "" ∧ (st.approvals a).isActive = true ∧
      st'.approvalIds = st.approvalIds ∧
      st'.approvals a = { st.approvals a with isActive := false } ∧
      ∀ k, k ≠ a → st'.approvals k = st.approvals k := by
  unfold deactivateApproval at h
  by_cases h1 : (st.approvals a).requestId = ""
  · simp [h1] at h
  · by_cases h2 : (st.approvals a).isActive
    · rw [if_neg h1, if_pos h2] at h
      injection h with h
      subst h
      exact ⟨h1, h2, rfl, by simp, fun k hk => by simp [hk]⟩
    · simp [h1, h2] at h

theorem applyOp_nonInsert (st : Ledger) (op : Op) (hop : insertedIds [op] = []) :
    (applyOp st op).approvalIds = st.approvalIds ∧
      ∀ k, ((applyOp st op).approvals k).requestId = (st.approvals k).requestId := by
  cases op with
  | insert now a r q o t l => simp [insertedIds] at hop
  | deactivate a =>
      simp only [applyOp]
      cases hd : deactivateApproval st a with
      | ok st2 =>
          obtain ⟨_, _, hids, hat, hother⟩ := deactivateApproval_ok hd
          refine ⟨hids, fun k => ?_⟩
          by_cases hk : k = a
          · subst hk; rw [hat]
          · rw [hother k hk]
      | error e => exact ⟨rfl, fun _ => rfl⟩
  | get a => exact ⟨rfl, fun _ => rfl⟩

theorem recordApproval_fresh {st : Ledger} {a : String}
    (ha : (st.approvals a).requestId = "")
    (now : Nat) (r q o t l : String) :
    recordApproval st now a r q o t l =
      .ok { approvals := fun k =>
              if k = a then
                { requestId := r, requesterId := q, ownerId := o
                  requestType := t, licenceKey := l, timestamp := now
                  isActive := true }
              else st.approvals k
            approvalIds := st.approvalIds ++ [a] } := by
  unfold recordApproval
  simp [ha]

/-- Key correctness lemma for the enumeration invariant: starting from any
state in which the ids about to be inserted are all fresh (their mapping
entries still have an empty `requestId`) and pairwise distinct, running
the trace appends exactly those ids, in call order, to `approvalIds`. -/
theorem run_approvalIds : ∀ (ops : List Op) (st : Ledger),
    (∀ id ∈ insertedIds ops, (st.approvals id).requestId = "") →
    (insertedIds ops).Nodup →
    (run st ops).approvalIds = st.approvalIds ++ insertedIds ops := by
  intro ops
  induction ops with
  | nil => intro st _ _; simp [run, insertedIds]
  | cons op ops ih =>
      intro st hfresh hnodup
      have step : run st (op :: ops) = run (applyOp st op) ops := rfl
      rw [step]
      cases op with
      | insert now a r q o t l =>
          have ha : (st.approvals a).requestId = "" := hfresh a (by simp [insertedIds])
          have hids : insertedIds (Op.insert now a r q o t l :: ops)
              = a :: insertedIds ops := rfl
          rw [hids] at hnodup
          have hanotin : a ∉ insertedIds ops := (List.nodup_cons.mp hnodup).1
          have hnodup' : (insertedIds ops).Nodup := (List.nodup_cons.mp hnodup).2
          have happ : applyOp st (Op.insert now a r q o t l) =
              { approvals := fun k =>
                  if k = a then
                    { requestId := r, requesterId := q, ownerId := o
                      requestType := t, licenceKey := l, timestamp := now
                      isActive := true }
                  else st.approvals k
                approvalIds := st.approvalIds ++ [a] } := by
            simp [applyOp, recordApproval_fresh ha]
          have hfresh' : ∀ id ∈ insertedIds ops,
              ((applyOp st (Op.insert now a r q o t l)).approvals id).requestId = "" := by
            intro id hid
            have hne : id ≠ a := fun h => hanotin (h ▸ hid)
            rw [happ]
            simpa [hne] using hfresh id (by simp [insertedIds, hid])
          rw [ih _ hfresh' hnodup', happ]
          simp [insertedIds]
      | deactivate a =>
          have h2 := applyOp_nonInsert st (Op.deactivate a) (by simp [insertedIds])
          have hfresh' : ∀ id ∈ insertedIds ops,
              ((applyOp st (Op.deactivate a)).approvals id).requestId = "" := by
            intro id hid
            rw [h2.2 id]
            exact hfresh id (by simpa [insertedIds] using hid)
          have hids : insertedIds (Op.deactivate a :: ops) = insertedIds ops := rfl
          rw [hids] at hnodup ⊢
          rw [ih _ hfresh' hnodup, h2.1]
      | get a =>
          have h2 := applyOp_nonInsert st (Op.get a) (by simp [insertedIds])
          have hfresh' : ∀ id ∈ insertedIds ops,
              ((applyOp st (Op.get a)).approvals id).requestId = "" := by
            intro id hid
            rw [h2.2 id]
            exact hfresh id (by simpa [insertedIds] using hid)
          have hids : insertedIds (Op.get a :: ops) = insertedIds ops := rfl
          rw [hids] at hnodup ⊢
          rw [ih _ hfresh' hnodup, h2.1]

/-- A key never inserted by the trace keeps its mapping entry unchanged,
provided the entry looks absent (empty `requestId`), which holds for all
keys of a fresh deployment. -/
theorem run_untouched : ∀ (ops : List Op) (st : Ledger) (id : String),
    (st.approvals id).requestId = "" → id ∉ insertedIds ops →
    (run st ops).approvals id = st.approvals id := by
  intro ops
  induction ops with
  | nil => intro st id _ _; rfl
  | cons op ops ih =>
      intro st id hempty hnotin
      have step : run st (op :: ops) = run (applyOp st op) ops := rfl
      rw [step]
      have hstep : (applyOp st op).approvals id = st.approvals id := by
        cases op with
        | insert now a r q o t l =>
            have hne : id ≠ a := by
              intro h
              exact hnotin (by simp [insertedIds, h])
            simp only [applyOp]
            by_cases hc : (st.approvals a).requestId = ""
            · simp [recordApproval, hc, hne]
            · simp [recordApproval, hc]
        | deactivate a =>
            simp only [applyOp]
            cases hd : deactivateApproval st a with
            | ok st2 =>
                obtain ⟨hreq, _, _, _, hother⟩ := deactivateApproval_ok hd
                have hne : id ≠ a := by
                  intro h
                  subst h
                  exact hreq hempty
                exact hother id hne
            | error e => rfl
        | get a => rfl
      have hnotin' : id ∉ insertedIds ops := by
        intro h
        apply hnotin
        cases op <;> simp [insertedIds, h]
      rw [ih _ id (by rw [hstep]; exact hempty) hnotin', hstep]

/-- Claim C1, as stated, is false: the duplicate guard of `recordApproval`
tests `approvals[approvalId].requestId` for emptiness, so after a first
insert whose `requestId` is the empty string, a second insert under the
same `approvalId` succeeds and overwrites the stored record instead of
failing with a duplicate-key error. -/
theorem claimC1_counterexample :
    (recordApproval emptyLedger 1 "A" "" "Q" "O" "gcp" "").isOk = true ∧
    (recordApproval emptyReqIdLedger 2 "A" "R2" "Q2" "O2" "excel" "K").isOk = true ∧
    getApproval (applyOp emptyReqIdLedger (.insert 2 "A" "R2" "Q2" "O2" "excel" "K")) "A" =
      { requestId := "R2", requesterId := "Q2", ownerId := "O2", requestType := "excel",
        licenceKey := "K", timestamp := 2, isActive := true } := by
  refine ⟨rfl, rfl, rfl⟩

/-- Claim C1 (amended): provided the first record has a non-empty
`requestId`, inserting it under a fresh `approvalId` succeeds, a second
insert under the same id fails with the duplicate-key revert, and the
stored record still carries the first record's data. -/
theorem claimC1 (st : Ledger) (now1 now2 : Nat)
    (a r1 q1 o1 t1 l1 r2 q2 o2 t2 l2 : String)
    (hfresh : (st.approvals a).requestId = "") (hne : r1 ≠ "") :
    ∃ st1, recordApproval st now1 a r1 q1 o1 t1 l1 = .ok st1 ∧
      recordApproval st1 now2 a r2 q2 o2 t2 l2 = .error "Approval ID already exists" ∧
      getApproval st1 a =
        { requestId := r1, requesterId := q1, ownerId := o1, requestType := t1,
          licenceKey := l1, timestamp := now1, isActive := true } := by
  refine ⟨_, recordApproval_fresh hfresh now1 r1 q1 o1 t1 l1, ?_, ?_⟩
  · unfold recordApproval
    simp [hne]
  · simp [getApproval]

/-- Witness for C1 at a concrete ledger and records. -/
theorem claimC1_witness :
    ∃ st1, recordApproval emptyLedger 5 "A1" "R1" "U1" "U2" "gcp" "GS1-1" = .ok st1 ∧
      recordApproval st1 6 "A1" "R9" "U9" "U8" "excel" "K" = .error "Approval ID already exists" ∧
      getApproval st1 "A1" =
        { requestId := "R1", requesterId := "U1", ownerId := "U2", requestType := "gcp",
          licenceKey := "GS1-1", timestamp := 5, isActive := true } :=
  claimC1 emptyLedger 5 6 "A1" "R1" "U1" "U2" "gcp" "GS1-1" "R9" "U9" "U8" "excel" "K"
    rfl (by decide)

/-- Claim C2, as stated, is false: a record inserted with an empty
`requestId` is active, yet its first deactivation fails with the
absence revert rather than succeeding, because the existence check of
`deactivateApproval` also uses `requestId` emptiness as its sentinel. -/
theorem claimC2_counterexample :
    (getApproval emptyReqIdLedger "A").isActive = true ∧
    deactivateApproval emptyReqIdLedger "A" = .error "Approval does not exist" := by
  refine ⟨rfl, rfl⟩

/-- Claim C2 (amended): for records whose stored `requestId` is non-empty
the claim holds: deactivation of an absent id reverts with the not-found
message, of an inactive record with the already-inactive message, and a
first deactivation of an active record succeeds, flips only `isActive`,
keeps the id sequence, and makes a second deactivation revert. -/
theorem claimC2 (st : Ledger) (x : String) :
    ((st.approvals x).requestId = "" →
        deactivateApproval st x = .error "Approval does not exist") ∧
    ((st.approvals x).requestId ≠ "" → (st.approvals x).isActive = false →
        deactivateApproval st x = .error "Approval is already inactive") ∧
    ((st.approvals x).requestId ≠ "" → (st.approvals x).isActive = true →
      ∃ st1, deactivateApproval st x = .ok st1 ∧
        (getApproval st1 x).isActive = false ∧
        getApproval st1 x = { getApproval st x with isActive := false } ∧
        st1.approvalIds = st.approvalIds ∧
        deactivateApproval st1 x = .error "Approval is already inactive") := by
  refine ⟨?_, ?_, ?_⟩
  · intro h
    unfold deactivateApproval
    simp [h]
  · intro h1 h2
    unfold deactivateApproval
    simp [h1, h2]
  · intro h1 h2
    have hok : deactivateApproval st x =
        .ok { st with approvals := fun k =>
                if k = x then { st.approvals x with isActive := false }
                else st.approvals k } := by
      unfold deactivateApproval
      rw [if_neg h1, if_pos h2]
    refine ⟨_, hok, ?_, ?_, rfl, ?_⟩
    · simp [getApproval]
    · simp [getApproval]
    · unfold deactivateApproval
      simp [h1]

/-- Witness for C2: a missing id, a double deactivation of a live record,
and a deactivation of an already-inactive record. -/
theorem claimC2_witness :
    (deactivateApproval liveLedger "zz" = .error "Approval does not exist") ∧
    (deactivateApproval deactLedger "A1" = .error "Approval is already inactive") ∧
    (∃ st1, deactivateApproval liveLedger "A1" = .ok st1 ∧
      (getApproval st1 "A1").isActive = false ∧
      getApproval st1 "A1" = { getApproval liveLedger "A1" with isActive := false } ∧
      st1.approvalIds = liveLedger.approvalIds ∧
      deactivateApproval st1 "A1" = .error "Approval is already inactive") :=
  ⟨(claimC2 liveLedger "zz").1 rfl,
   (claimC2 deactLedger "A1").2.1 (by decide) (by decide),
   (claimC2 liveLedger "A1").2.2 (by decide) rfl⟩

/-- Claim C3, as stated, is false: `getApproval` has no existence check,
so a view call for a never-inserted id succeeds and returns the
zero-initialised struct (empty strings, zero timestamp, inactive)
instead of failing with a not-found error. -/
theorem claimC3_counterexample :
    callGetApproval emptyLedger "480e24ac73d48cd107ea16cd14798b89" = .ok defaultApproval ∧
    (callGetApproval emptyLedger "480e24ac73d48cd107ea16cd14798b89").isOk = true := by
  refine ⟨rfl, rfl⟩

/-- Claim C3 (amended): for every id never inserted by a trace from a
fresh deployment, `get` succeeds and returns the default record rather
than failing; and a `get` call never mutates the ledger. -/
theorem claimC3 (ops : List Op) (id : String) (h : id ∉ insertedIds ops) :
    callGetApproval (run emptyLedger ops) id = .ok defaultApproval ∧
      (∀ st x, applyOp st (Op.get x) = st) := by
  constructor
  · unfold callGetApproval getApproval
    rw [run_untouched ops emptyLedger id rfl h]
    rfl
  · intro st x
    rfl

/-- Witness for C3 on the demo trace and a fresh id. -/
theorem claimC3_witness :
    callGetApproval (run emptyLedger demoOps) "missing" = .ok defaultApproval ∧
      (∀ st x, applyOp st (Op.get x) = st) :=
  claimC3 demoOps "missing" (by decide)

/-- Claim C4: starting from a fresh deployment, a trace whose insert calls
use pairwise-distinct ids (all of which then succeed), interleaved with
any deactivate and get calls, leaves `approvalIds` equal to the ids in
insertion order; `getTotalApprovals` counts them, `getApprovalIdByIndex`
enumerates them, and any index that is negative or at least the count
fails. -/
theorem claimC4 (ops : List Op) (h : (insertedIds ops).Nodup) :
    getTotalApprovals (run emptyLedger ops) = (insertedIds ops).length ∧
    (run emptyLedger ops).approvalIds = insertedIds ops ∧
    (∀ (i : Nat) (hi : i < (insertedIds ops).length),
        getApprovalIdByIndex (run emptyLedger ops) i = .ok ((insertedIds ops).get ⟨i, hi⟩)) ∧
    (∀ i : Int, i < 0 ∨ ((insertedIds ops).length : Int) ≤ i →
        (getApprovalIdByIndexInt (run emptyLedger ops) i).isOk = false) := by
  have hids : (run emptyLedger ops).approvalIds = insertedIds ops := by
    have := run_approvalIds ops emptyLedger (fun id _ => rfl) h
    simpa [emptyLedger] using this
  refine ⟨?_, hids, ?_, ?_⟩
  · unfold getTotalApprovals
    rw [hids]
  · intro i hi
    simp only [getApprovalIdByIndex, hids]
    rw [dif_pos hi]
    exact congrArg Except.ok (List.get_of_eq hids _)
  · intro i hcase
    rcases hcase with hneg | hge
    · simp only [getApprovalIdByIndexInt]
      rw [if_pos hneg]
      rfl
    · have h0 : ¬ i < 0 := by omega
      have hlen : ¬ i.toNat < (insertedIds ops).length := by omega
      simp only [getApprovalIdByIndexInt, getApprovalIdByIndex, hids]
      rw [if_neg h0, dif_neg hlen]
      rfl

/-- Witness for C4 on the demo trace: two inserted ids "A1", "B2". -/
theorem claimC4_witness :
    getTotalApprovals (run emptyLedger demoOps) = 2 ∧
    getApprovalIdByIndex (run emptyLedger demoOps) 1 = .ok "B2" ∧
    (getApprovalIdByIndexInt (run emptyLedger demoOps) 5).isOk = false ∧
    (getApprovalIdByIndexInt (run emptyLedger demoOps) (-1)).isOk = false := by
  have h := claimC4 demoOps (by decide)
  refine ⟨?_, ?_, ?_, ?_⟩
  · rw [h.1]
    rfl
  · rw [h.2.2.1 1 (by decide)]
    rfl
  · exact h.2.2.2 5 (Or.inr (by decide))
  · exact h.2.2.2 (-1) (Or.inl (by decide))

theorem string_data_ext {s t : String} (h : s.data = t.data) : s = t := by
  cases s
  cases t
  cases h
  rfl

theorem starts0x_data {s : String} (h : starts0x s = true) :
    s.data = '0' :: 'x' :: s.data.drop 2 := by
  unfold starts0x at h
  have h2 : s.data.take 2 = ['0', 'x'] := by simpa using h
  calc s.data = s.data.take 2 ++ s.data.drop 2 := (List.take_append_drop 2 s.data).symm
    _ = '0' :: 'x' :: s.data.drop 2 := by rw [h2]; rfl

theorem isHex64_not_starts0x {h : String} (hh : isHex64 h = true) :
    starts0x h = false := by
  cases hx : starts0x h
  · rfl
  · exfalso
    have hdata := starts0x_data hx
    have hxm : 'x' ∈ h.data := by rw [hdata]; simp
    unfold isHex64 at hh
    rw [Bool.and_eq_true] at hh
    have hall := hh.2
    rw [List.all_eq_true] at hall
    exact absurd (hall _ hxm) (by decide)

theorem isHex64_ne_empty {h : String} (hh : isHex64 h = true) : h ≠ "" := by
  intro he
  rw [he] at hh
  exact absurd hh (by decide)

theorem marker_append_ne_empty (h : String) : ("0x" ++ h) ≠ "" := by
  intro he
  have hd := congrArg String.data he
  rw [String.data_append] at hd
  exact absurd hd (by simp)

theorem starts0x_marker (h : String) : starts0x ("0x" ++ h) = true := by
  unfold starts0x
  rw [String.data_append]
  rfl

theorem strip0x_marker (h : String) : strip0x ("0x" ++ h) = h := by
  unfold strip0x
  rw [if_pos (starts0x_marker h)]
  apply string_data_ext
  rw [String.data_append]
  rfl

theorem validate_hex_plain {h : String} (hh : isHex64 h = true) :
    validatePrivateKey (.str h) = .ok ("0x" ++ h) := by
  simp only [validatePrivateKey]
  have hstrip : strip0x h = h := by
    simp [strip0x, isHex64_not_starts0x hh]
  rw [if_neg (isHex64_ne_empty hh), hstrip, if_pos hh]

theorem validate_hex_marker {h : String} (hh : isHex64 h = true) :
    validatePrivateKey (.str ("0x" ++ h)) = .ok ("0x" ++ h) := by
  simp only [validatePrivateKey]
  rw [if_neg (marker_append_ne_empty h), strip0x_marker, if_pos hh]

theorem validate_ok_shape {v : JSVal} {r : String}
    (hok : validatePrivateKey v = .ok r) :
    ∃ c : String, isHex64 c = true ∧ r = "0x" ++ c ∧
      (v = .str c ∨ v = .str ("0x" ++ c)) := by
  cases v with
  | nonString => simp [validatePrivateKey] at hok
  | str key =>
      simp only [validatePrivateKey] at hok
      by_cases hkey : key = ""
      · rw [if_pos hkey] at hok
        cases hok
      · rw [if_neg hkey] at hok
        by_cases hhex : isHex64 (strip0x key) = true
        · rw [if_pos hhex] at hok
          injection hok with hok
          refine ⟨strip0x key, hhex, hok.symm, ?_⟩
          by_cases hs : starts0x key = true
          · right
            have hkeyeq : ("0x" ++ strip0x key) = key := by
              apply string_data_ext
              rw [String.data_append]
              have h1 : strip0x key = String.mk (key.data.drop 2) := by
                simp [strip0x, hs]
              rw [h1]
              exact (starts0x_data hs).symm
            rw [hkeyeq]
          · left
            have hsf : starts0x key = false := by
              cases hxx : starts0x key
              · rfl
              · exact absurd hxx hs
            have hid : strip0x key = key := by
              simp [strip0x, hsf]
            rw [hid]
        · rw [if_neg hhex] at hok
          cases hok

/-- Claim C10: the private-key validator accepts exactly the strings of
64 hexadecimal characters with an optional `0x` marker, returns the
`0x`-prefixed normal form, is idempotent on accepted keys, and rejects
every other input, non-strings and the empty string included. -/
theorem claimC10 (v : JSVal) :
    ((validatePrivateKey v).isOk = true ↔
      ∃ c : String, isHex64 c = true ∧ (v = .str c ∨ v = .str ("0x" ++ c))) ∧
    (∀ c : String, isHex64 c = true →
      validatePrivateKey (.str c) = .ok ("0x" ++ c) ∧
      validatePrivateKey (.str ("0x" ++ c)) = .ok ("0x" ++ c)) ∧
    (∀ r : String, validatePrivateKey v = .ok r → validatePrivateKey (.str r) = .ok r) ∧
    (validatePrivateKey .nonString).isOk = false ∧
    (validatePrivateKey (.str "")).isOk = false := by
  refine ⟨⟨?_, ?_⟩, ?_, ?_, rfl, rfl⟩
  · intro hok
    obtain ⟨r, hr⟩ : ∃ r, validatePrivateKey v = .ok r := by
      cases hv : validatePrivateKey v with
      | ok r => exact ⟨r, rfl⟩
      | error e => rw [hv] at hok; cases hok
    obtain ⟨c, hc, _, hvc⟩ := validate_ok_shape hr
    exact ⟨c, hc, hvc⟩
  · rintro ⟨c, hc, hv | hv⟩
    · rw [hv, validate_hex_plain hc]
      rfl
    · rw [hv, validate_hex_marker hc]
      rfl
  · intro c hc
    exact ⟨validate_hex_plain hc, validate_hex_marker hc⟩
  · intro r hr
    obtain ⟨c, hc, hshape, _⟩ := validate_ok_shape hr
    rw [hshape]
    exact validate_hex_marker hc

/-- Witness for C10 on a concrete 64-character key. -/
theorem claimC10_witness :
    isHex64 sampleHexKey = true ∧
    validatePrivateKey (.str sampleHexKey) = .ok ("0x" ++ sampleHexKey) ∧
    validatePrivateKey (.str ("0x" ++ sampleHexKey)) = .ok ("0x" ++ sampleHexKey) := by
  have h := claimC10 (.str sampleHexKey)
  have h1 := (h.2.1 sampleHexKey (by decide)).1
  exact ⟨by decide, h1, h.2.2.1 ("0x" ++ sampleHexKey) h1⟩

theorem strStage_eq (field : ScannedApproval → String) (q : Option String)
    (l : List ScannedApproval) :
    strStage field q l = l.filter (strStagePred field q) := by
  cases q with
  | none =>
      have hp : strStagePred field none = fun _ => true :=
        funext fun a => by simp [strStagePred]
      rw [hp, List.filter_true]
      rfl
  | some s =>
      by_cases hs : s = ""
      · have hp : strStagePred field (some s) = fun _ => true :=
          funext fun a => by simp [strStagePred, hs]
        rw [hp, List.filter_true]
        simp [strStage, hs]
      · have hp : strStagePred field (some s) = strFilterTest field s :=
          funext fun a => by simp [strStagePred, hs]
        rw [hp]
        simp [strStage, hs]

theorem typeStage_eq (q : Option String) (l : List ScannedApproval) :
    typeStage q l = l.filter (typeStagePred q) := by
  cases q with
  | none =>
      have hp : typeStagePred none = fun _ => true :=
        funext fun a => by simp [typeStagePred]
      rw [hp, List.filter_true]
      rfl
  | some s =>
      by_cases hs : s = ""
      · have hp : typeStagePred (some s) = fun _ => true :=
          funext fun a => by simp [typeStagePred, hs]
        rw [hp, List.filter_true]
        simp [typeStage, hs]
      · have hp : typeStagePred (some s) = typeFilterTest s :=
          funext fun a => by simp [typeStagePred, hs]
        rw [hp]
        simp [typeStage, hs]

theorem fromStage_eq (q : Option Int) (l : List ScannedApproval) :
    fromStage q l = l.filter (fromStagePred q) := by
  cases q with
  | none =>
      have hp : fromStagePred none = fun _ => true :=
        funext fun a => by simp [fromStagePred]
      rw [hp, List.filter_true]
      rfl
  | some ts =>
      have hp : fromStagePred (some ts) = fromFilterTest ts :=
        funext fun a => by simp [fromStagePred]
      rw [hp]
      rfl

theorem toStage_eq (q : Option Int) (l : List ScannedApproval) :
    toStage q l = l.filter (toStagePred q) := by
  cases q with
  | none =>
      have hp : toStagePred none = fun _ => true :=
        funext fun a => by simp [toStagePred]
      rw [hp, List.filter_true]
      rfl
  | some ts =>
      have hp : toStagePred (some ts) = toFilterTest ts :=
        funext fun a => by simp [toStagePred]
      rw [hp]
      rfl

theorem activeStage_eq (q : Option String) (l : List ScannedApproval) :
    activeStage q l = l.filter (activeStagePred q) := by
  cases q with
  | none =>
      have hp : activeStagePred none = fun _ => true :=
        funext fun a => by simp [activeStagePred]
      rw [hp, List.filter_true]
      rfl
  | some s =>
      have hp : activeStagePred (some s) = activeFilterTest s :=
        funext fun a => by simp [activeStagePred]
      rw [hp]
      rfl

/-- The eight sequential filters collapse to one filter by the conjunction
of their predicates. -/
theorem filterApprovals_eq_filter (q : SearchQuery) (l : List ScannedApproval) :
    filterApprovals q l = l.filter (matchesAll q) := by
  unfold filterApprovals
  simp only [strStage_eq, typeStage_eq, fromStage_eq, toStage_eq, activeStage_eq,
    List.filter_filter]
  rfl

/-- Claim C5, as stated, is false: the route's requestType filter compares
lower-cased values, so searching `requestType=GCP` returns the record
whose stored type is "gcp" even though the exact-match predicate of the
claim rejects it. -/
theorem claimC5_counterexample :
    filterApprovals qUpperGCP [gcpScanned] = [gcpScanned] ∧
    claimMatches qUpperGCP gcpScanned = false := by
  exact ⟨by decide, by decide⟩

/-- Claim C5 (amended): search returns exactly the records satisfying the
conjunction of the supplied predicates as coded — requestId,
requesterId, ownerId and licenceKey as case-insensitive substring over a
non-empty field, requestType as case-insensitive equality over a
non-empty field, the timestamp bounds over a non-zero timestamp, and
isActive as exact boolean match; the result is independent of insertion
order up to permutation, always carries the pre-filter total count, and
with no filters returns every scanned record, with total_found equal to
the number scanned. -/
theorem claimC5 (q : SearchQuery) (l l2 : List ScannedApproval) (t : Nat)
    (hperm : l.Perm l2) :
    (searchResponse q l t).approvals = l.filter (matchesAll q) ∧
    ((searchResponse q l t).approvals).Perm ((searchResponse q l2 t).approvals) ∧
    (searchResponse q l t).total_found = ((searchResponse q l t).approvals).length ∧
    (searchResponse q l t).total_approvals = t ∧
    (searchResponse emptyQuery l t).approvals = l ∧
    (searchResponse emptyQuery l t).total_found = l.length := by
  refine ⟨filterApprovals_eq_filter q l, ?_, rfl, rfl, rfl, rfl⟩
  show (filterApprovals q l).Perm (filterApprovals q l2)
  rw [filterApprovals_eq_filter, filterApprovals_eq_filter]
  exact hperm.filter _

/-- Witness for C5 on a two-record scan and the spec's example query. -/
theorem claimC5_witness :
    (searchResponse demoQuery demoScan 2).approvals = demoScan.filter (matchesAll demoQuery) ∧
    ((searchResponse demoQuery demoScan 2).approvals).Perm
      ((searchResponse demoQuery demoScan.reverse 2).approvals) ∧
    (searchResponse demoQuery demoScan 2).total_found =
      ((searchResponse demoQuery demoScan 2).approvals).length ∧
    (searchResponse demoQuery demoScan 2).total_approvals = 2 ∧
    (searchResponse emptyQuery demoScan 2).approvals = demoScan ∧
    (searchResponse emptyQuery demoScan 2).total_found = demoScan.length :=
  claimC5 demoQuery demoScan demoScan.reverse 2 (by decide)

/-- The imperative scan loop equals a `filterMap` over the index range:
erroring indexes contribute nothing, each successful index its record. -/
theorem scanAux_eq_filterMap (idAt : Nat → Except String String)
    (getAp : String → Except String GetResult) :
    ∀ (rem i : Nat),
      scanAux idAt getAp i rem = (List.range' i rem).filterMap (scanOne idAt getAp) := by
  intro rem
  induction rem with
  | zero => intro i; rfl
  | succ n ih =>
      intro i
      rw [List.range'_succ]
      simp only [List.filterMap_cons]
      cases hs : scanOne idAt getAp i with
      | none => simp only [scanAux, hs, ih]
      | some x => simp only [scanAux, hs, ih]

/-- Claim C6, as stated, is false in its count-failure half: when the
count call fails, the route does not fail the search — it substitutes
the two hard-coded sample records and succeeds. -/
theorem claimC6_counterexample :
    searchFetch 2000000 (.error "connection refused")
        (fun _ => .error "unreachable") (fun _ => .error "unreachable") =
      .ok (mockSearchData 2000000, 0) ∧
    (searchFetch 2000000 (.error "connection refused")
        (fun _ => .error "unreachable") (fun _ => .error "unreachable")).isOk = true ∧
    mockSearchData 2000000 ≠ [] := by
  refine ⟨rfl, rfl, by decide⟩

/-- Claim C6 (amended): with a successful count of n, the scan returns
exactly the records of the indexes whose two fetches succeed, in index
order, skipping every failing index while the operation as a whole
succeeds; when the count call itself fails, the operation still succeeds,
substituting the two sample records and a zero total. -/
theorem claimC6 (nowMs : Int) (total : Except String Nat)
    (idAt : Nat → Except String String) (getAp : String → Except String GetResult) :
    searchFetch nowMs total idAt getAp =
      .ok (match total with
           | .ok n => ((List.range n).filterMap (scanOne idAt getAp), n)
           | .error _ => (mockSearchData nowMs, 0)) := by
  cases total with
  | ok n =>
      simp only [searchFetch]
      rw [scanAux_eq_filterMap, List.range_eq_range']
  | error e => rfl

/-- Claim C7, as stated, is false twice over: an initialisation failure
whose message contains `Private Key` drops the service silently to mock
mode when even the read-only re-initialisation fails, although the
fallback flag is unset; and in simulated mode the mock `get` does not
return the inserted record — it fabricates data from the id. -/
theorem claimC7_counterexample :
    constructService
        { isGanache := false, useMockMode := false, allowMockFallback := false
          privateKey := none }
        (.error "Private Key must be 32 bytes") (.ok ()) (.error "connect failed") =
      .ok .simulated ∧
    (mockRecordSyncApproval
        { approvalId := "A1", requestId := "R1", requesterId := "U1", ownerId := "U2"
          requestType := "gcp", licenceKey := "GS1-1" } 1000).success = true ∧
    (mockGetApproval "A1" 1000000
        { typeAbove := true, licNum := 7, tsBack := 3, activeAbove := true }).data.requestId =
      "real-request-A1" ∧
    "real-request-A1" ≠ "R1" := by
  refine ⟨?_, rfl, by decide, by decide⟩
  have hc : containsSub "Private Key must be 32 bytes" "Private Key" = true := by decide
  simp [constructService, catchHandler, hc]

/-- Claim C7 (amended): a live-mode initialisation failure whose message
does not match the `Private Key` pattern throws when the fallback flag
is unset and drops to simulated when it is set; a failure message
containing `Private Key` yields read-only when the read-only re-init
succeeds and silently simulated when it fails, regardless of the flag;
an account-creation failure on a regex-valid key is rewrapped with the
`Invalid private key format` stem and handled by that same catch block;
and in simulated mode every insert reports success, but the record is
not retrievable: the mock get succeeds with data fabricated from the
approvalId (canned fixtures aside), regardless of what was inserted. -/
theorem claimC7 (env : Env) (e msgA : String) (reInit acct : Except String Unit)
    (inp : ApprovalInput) (nowMs : Int) (id : String) (nowSec : Int) (r : MockRand)
    (hg : env.isGanache = false) (hm : env.useMockMode = false)
    (h1 : id ≠ "480e24ac73d48cd107ea16cd14798b89")
    (h2 : id ≠ "7f8e9d6c5b4a3210fedcba9876543210") :
    (containsSub e "Private Key" = false → env.allowMockFallback = false →
        constructService env (.error e) acct reInit =
          .error ("Failed to initialize blockchain connection: " ++ e)) ∧
    (containsSub e "Private Key" = false → env.allowMockFallback = true →
        constructService env (.error e) acct reInit = .ok .simulated) ∧
    (containsSub e "Private Key" = true → reInit = .ok () →
        constructService env (.error e) acct reInit = .ok .readOnly) ∧
    (containsSub e "Private Key" = true → ∀ m2 : String, reInit = .error m2 →
        constructService env (.error e) acct reInit = .ok .simulated) ∧
    (∀ k : String, env.privateKey = some k →
        (validatePrivateKey (.str k)).isOk = true →
        constructService env (.ok ()) (.error msgA) reInit =
          catchHandler env reInit ("Invalid private key format: " ++ msgA)) ∧
    (mockRecordSyncApproval inp nowMs).success = true ∧
    (mockGetApproval id nowSec r).success = true ∧
    (mockGetApproval id nowSec r).data.requestId =
      "real-request-" ++ jsSubstring id 0 8 := by
  refine ⟨?_, ?_, ?_, ?_, ?_, rfl, ?_, ?_⟩
  · intro hpk hf
    simp [constructService, hg, hm, catchHandler, hpk, hf]
  · intro hpk hf
    simp [constructService, hg, hm, catchHandler, hpk, hf]
  · intro hpk hre
    simp [constructService, hg, hm, catchHandler, hpk, hre]
  · intro hpk m2 hre
    simp [constructService, hg, hm, catchHandler, hpk, hre]
  · intro k hpkey hvalid
    obtain ⟨v, hv⟩ : ∃ v, validatePrivateKey (.str k) = .ok v := by
      cases hx : validatePrivateKey (.str k) with
      | ok v => exact ⟨v, rfl⟩
      | error e2 => rw [hx] at hvalid; cases hvalid
    simp [constructService, hg, hm, hpkey, hv]
  · simp [mockGetApproval, h1, h2]
  · simp [mockGetApproval, h1, h2]

set_option maxRecDepth 8192 in
/-- Witness for C7: a connection failure with the flag unset and set, a
`Private Key` failure with succeeding and failing read-only re-init, an
account-creation failure on the regex-valid sample key, and a mock
round trip that loses the inserted requestId. -/
theorem claimC7_witness :
    (constructService
        { isGanache := false, useMockMode := false, allowMockFallback := false
          privateKey := none } (.error "connection refused") (.ok ()) (.ok ()) =
      .error ("Failed to initialize blockchain connection: " ++ "connection refused")) ∧
    (constructService
        { isGanache := false, useMockMode := false, allowMockFallback := true
          privateKey := none } (.error "connection refused") (.ok ()) (.ok ()) =
      .ok .simulated) ∧
    (constructService
        { isGanache := false, useMockMode := false, allowMockFallback := false
          privateKey := none } (.error "Private Key must be 32 bytes") (.ok ()) (.ok ()) =
      .ok .readOnly) ∧
    (constructService
        { isGanache := false, useMockMode := false, allowMockFallback := false
          privateKey := none } (.error "Private Key must be 32 bytes") (.ok ())
        (.error "connect failed") = .ok .simulated) ∧
    (constructService
        { isGanache := false, useMockMode := false, allowMockFallback := false
          privateKey := some sampleHexKey } (.ok ())
        (.error "Private Key must be 32 bytes") (.ok ()) = .ok .readOnly) ∧
    (mockGetApproval "A1" 1000000
        { typeAbove := true, licNum := 7, tsBack := 3, activeAbove := true }).data.requestId =
      "real-request-" ++ jsSubstring "A1" 0 8 := by
  have hA := claimC7
    { isGanache := false, useMockMode := false, allowMockFallback := false
      privateKey := none } "connection refused" "x" (.ok ()) (.ok ())
    { approvalId := "A1", requestId := "R1", requesterId := "U1", ownerId := "U2"
      requestType := "gcp", licenceKey := "GS1-1" } 1000 "A1" 1000000
    { typeAbove := true, licNum := 7, tsBack := 3, activeAbove := true }
    rfl rfl (by decide) (by decide)
  have hB := claimC7
    { isGanache := false, useMockMode := false, allowMockFallback := true
      privateKey := none } "connection refused" "x" (.ok ()) (.ok ())
    { approvalId := "A1", requestId := "R1", requesterId := "U1", ownerId := "U2"
      requestType := "gcp", licenceKey := "GS1-1" } 1000 "A1" 1000000
    { typeAbove := true, licNum := 7, tsBack := 3, activeAbove := true }
    rfl rfl (by decide) (by decide)
  have hC := claimC7
    { isGanache := false, useMockMode := false, allowMockFallback := false
      privateKey := none } "Private Key must be 32 bytes" "x" (.ok ()) (.ok ())
    { approvalId := "A1", requestId := "R1", requesterId := "U1", ownerId := "U2"
      requestType := "gcp", licenceKey := "GS1-1" } 1000 "A1" 1000000
    { typeAbove := true, licNum := 7, tsBack := 3, activeAbove := true }
    rfl rfl (by decide) (by decide)
  have hD := claimC7
    { isGanache := false, useMockMode := false, allowMockFallback := false
      privateKey := none } "Private Key must be 32 bytes" "x" (.error "connect failed")
    (.ok ())
    { approvalId := "A1", requestId := "R1", requesterId := "U1", ownerId := "U2"
      requestType := "gcp", licenceKey := "GS1-1" } 1000 "A1" 1000000
    { typeAbove := true, licNum := 7, tsBack := 3, activeAbove := true }
    rfl rfl (by decide) (by decide)
  have hE := claimC7
    { isGanache := false, useMockMode := false, allowMockFallback := false
      privateKey := some sampleHexKey } "x" "Private Key must be 32 bytes" (.ok ())
    (.ok ())
    { approvalId := "A1", requestId := "R1", requesterId := "U1", ownerId := "U2"
      requestType := "gcp", licenceKey := "GS1-1" } 1000 "A1" 1000000
    { typeAbove := true, licNum := 7, tsBack := 3, activeAbove := true }
    rfl rfl (by decide) (by decide)
  have hE5 := hE.2.2.2.2.1 sampleHexKey rfl (by decide)
  have hcat : catchHandler
      { isGanache := false, useMockMode := false, allowMockFallback := false
        privateKey := some sampleHexKey } (.ok ())
      ("Invalid private key format: " ++ "Private Key must be 32 bytes") =
      .ok .readOnly := by
    simp only [catchHandler]
    have hc : containsSub ("Invalid private key format: " ++ "Private Key must be 32 bytes")
        "Private Key" = true := by decide
    rw [if_pos hc]
  exact ⟨hA.1 (by decide) rfl, hB.2.1 (by decide) rfl,
    hC.2.2.1 (by decide) rfl, hD.2.2.2.1 (by decide) "connect failed" rfl,
    hE5.trans hcat, hA.2.2.2.2.2.2.2⟩

set_option maxRecDepth 8192 in
/-- Claim C8, as stated, is false: on Ganache the insufficient-funds retry
recurses without a bound — three insufficient-funds failures in a row
are followed by a fourth attempt that succeeds, i.e. three automatic
retries happened, and a trace of only such failures never surfaces an
error at all. -/
theorem claimC8_counterexample :
    recordAttemptsGanache (fun _ => .ok ()) 0
        [insuffAttempt, insuffAttempt, insuffAttempt, .success "0xabc" 7] =
      some ({ success := true, errMsg := "" }, 4) ∧
    recordAttemptsGanache (fun _ => .ok ()) 0
        [insuffAttempt, insuffAttempt, insuffAttempt] = none := by
  refine ⟨by decide, by decide⟩

/-- Claim C8 (amended): on Ganache the retry repeats as long as the
insufficient-funds pattern persists — with account re-resolution
succeeding, one attempt is consumed per leading insufficient-funds
failure before the first terminal attempt's outcome is surfaced; on
other backends every insert consumes exactly one attempt whatever its
outcome — an insufficient-funds failure surfaces the funds envelope
without any retry — and deactivation likewise always consumes exactly
one attempt. -/
theorem claimC8 (pre rest : List Attempt) (a : Attempt) (k : Nat)
    (hpre : ∀ x ∈ pre, insufficientAttempt x = true)
    (hterm : insufficientAttempt a = false) :
    recordAttemptsGanache (fun _ => .ok ()) k (pre ++ a :: rest) =
      some (finalOutcome a, pre.length + 1) ∧
    (∀ (b : Attempt) (rest2 : List Attempt),
        recordAttemptsNonGanache (b :: rest2) = some (nonGanacheSurface b, 1)) ∧
    (∀ (b : Attempt) (rest2 : List Attempt),
        deactivateWith (some "0xacct") (b :: rest2) = some (deactSurface b, 1)) := by
  refine ⟨?_, ?_, fun b rest2 => rfl⟩
  · revert hpre
    induction pre generalizing k with
    | nil =>
        intro _
        cases a with
        | success h b => rfl
        | failure m =>
            have hm : isInsufficient m = false := hterm
            simp [recordAttemptsGanache, hm]
    | cons p ps ih =>
        intro hpre
        have hp : insufficientAttempt p = true := hpre p (by simp)
        cases p with
        | success h b => simp [insufficientAttempt] at hp
        | failure m =>
            have hm : isInsufficient m = true := hp
            have hps : ∀ x ∈ ps, insufficientAttempt x = true := fun x hx =>
              hpre x (by simp [hx])
            have step : recordAttemptsGanache (fun _ => .ok ()) k
                ((Attempt.failure m :: ps) ++ a :: rest) =
                match recordAttemptsGanache (fun _ => .ok ()) (k + 1) (ps ++ a :: rest) with
                | some (r, n) => some (r, n + 1)
                | none => none := by
              simp [recordAttemptsGanache, hm]
            rw [step, ih (k + 1) hps]
            simp
  · intro b rest2
    cases b with
    | success h bn => rfl
    | failure m =>
        by_cases hm : isInsufficient m = true
        · simp [recordAttemptsNonGanache, nonGanacheSurface, hm]
        · simp [recordAttemptsNonGanache, nonGanacheSurface, hm]

set_option maxRecDepth 8192 in
/-- Witness for C8: two insufficient-funds failures before a reverting
terminal attempt consume three attempts on Ganache, while off Ganache an
insufficient-funds first attempt surfaces the funds envelope after one
attempt, and deactivation of such an attempt also stops at one. -/
theorem claimC8_witness :
    recordAttemptsGanache (fun _ => .ok ()) 0
        [insuffAttempt, insuffAttempt, .failure "execution reverted"] =
      some (finalOutcome (.failure "execution reverted"), 3) ∧
    recordAttemptsNonGanache [insuffAttempt] = some (insufficientOutcome, 1) ∧
    deactivateWith (some "0xacct") [insuffAttempt] =
      some (deactSurface insuffAttempt, 1) := by
  have h := claimC8 [insuffAttempt, insuffAttempt] [] (.failure "execution reverted") 0
    (by decide) (by decide)
  exact ⟨h.1, h.2.1 insuffAttempt [], h.2.2 insuffAttempt []⟩

set_option maxRecDepth 8192 in
/-- Claim C9, as stated, is false for deactivate: in read-only mode the
method has no read-only guard; it proceeds into the transaction path,
dereferences the absent account, and surfaces a generic
failed-to-deactivate error, not a read-only error. -/
theorem claimC9_counterexample :
    deactivateService readOnlyState (.error "unused") [insuffAttempt] =
      some ({ success := false, errMsg := undefinedAccountMsg }, 0) ∧
    undefinedAccountMsg ≠ readOnlyErrMsg ∧
    containsSub undefinedAccountMsg "read-only" = false := by
  refine ⟨rfl, by decide, by decide⟩

/-- Claim C9 (amended): in read-only mode insert fails fast with the
read-only error and touches no attempt; the read methods never consult
the read-only flag, behaving exactly as in live mode; deactivate,
lacking the check, fails with the generic undefined-account error
rather than a read-only error, also without reaching the backend. -/
theorem claimC9 (st : ServiceState) (reInit : Nat → Except String Unit)
    (attempts : List Attempt) (b : Bool) (n : Except String Nat)
    (sres : Except String String) (index : Nat) (id : String) (nowSec : Int)
    (r : MockRand) (call : Except String ApprovalData) (ginit : Except String String)
    (hm : st.mockMode = false) (hro : st.readOnlyMode = true)
    (hg : st.isGanache = false) (hacct : st.account = none) :
    recordService st reInit attempts =
      some ({ success := false, errMsg := readOnlyErrMsg }, 0) ∧
    getTotalApprovalsService { st with readOnlyMode := b } n =
      getTotalApprovalsService st n ∧
    getApprovalIdByIndexService { st with readOnlyMode := b } index sres =
      getApprovalIdByIndexService st index sres ∧
    getApprovalService { st with readOnlyMode := b } id nowSec r call =
      getApprovalService st id nowSec r call ∧
    deactivateService st ginit attempts =
      some ({ success := false, errMsg := undefinedAccountMsg }, 0) ∧
    undefinedAccountMsg ≠ readOnlyErrMsg := by
  refine ⟨?_, rfl, rfl, rfl, ?_, by decide⟩
  · simp [recordService, hm, hro]
  · simp [deactivateService, hm, hg, hacct, deactivateWith]

/-- Witness for C9 in the concrete read-only state. -/
theorem claimC9_witness :
    recordService readOnlyState (fun _ => .ok ()) [insuffAttempt] =
      some ({ success := false, errMsg := readOnlyErrMsg }, 0) ∧
    getTotalApprovalsService { readOnlyState with readOnlyMode := false } (.ok 3) =
      getTotalApprovalsService readOnlyState (.ok 3) ∧
    deactivateService readOnlyState (.ok "0xacct") [insuffAttempt] =
      some ({ success := false, errMsg := undefinedAccountMsg }, 0) := by
  have h := claimC9 readOnlyState (fun _ => .ok ()) [insuffAttempt] false (.ok 3)
    (.ok "id") 0 "A1" 1000
    { typeAbove := true, licNum := 1, tsBack := 2, activeAbove := false }
    (.ok defaultData) (.ok "0xacct") rfl rfl rfl rfl
  exact ⟨h.1, h.2.1, h.2.2.2.2.1⟩
